import Mathlib

/-!
Shallow embedding of the seatTracker availability-polling core.

Sources embedded:
- src/database/db_helper.py: update_course_watch_status, create_notification,
  cleanup_old_records (SQLite tables modelled as Lean lists of rows).
- src/scraper/mosaic_scraper.py: get_course_status (the page is modelled by the
  list of alt-texts of the status icons located by the selector, the two text
  probes of the zero-icon branch, and the icon list seen after the retry wait).
- src/scraper/scraper_loop.py: scrape_all_courses (the per-item loop, the
  notification trigger, the login-failure handler, the cleanup call) and the
  body of one iteration of run_continuous (browser-restart check, exception
  handler, fixed sleep).

External effects (playwright login, page extraction, the sqlite connection for
the initial watch fetch) are passed in as oracle values: `Except` models the
Python raise/return distinction at each boundary the core observes.
-/

namespace SeatTracker

/-- Course-section status as stored in `course_watches.status` and produced by
`get_course_status`: one of open / closed / waitlist / not_found. -/
inductive Status where
  | «open»
  | closed
  | waitlist
  | not_found
deriving DecidableEq, Repr

/-- One row of the `course_watches` table (init_db.py): id, user_id, course_id,
status (default closed), active, notify_on_open, last_checked (nullable). -/
structure WatchRow where
  id : Nat
  user_id : Nat
  course_id : Nat
  status : Status
  active : Bool
  notify_on_open : Bool
  last_checked : Option Int
deriving DecidableEq, Repr

/-- One row of the `notifications` table: user_id, course_watch_id,
notification_type, sent_at (DB default CURRENT_TIMESTAMP). -/
structure NotificationRow where
  user_id : Nat
  course_watch_id : Nat
  notification_type : String
  sent_at : Int
deriving DecidableEq, Repr

/-- One row of the `password_reset_tokens` table: user_id, token, expires_at,
used (INTEGER 0/1, modelled as Bool). -/
structure TokenRow where
  user_id : Nat
  token : String
  expires_at : Int
  used : Bool
deriving DecidableEq, Repr

/-- db_helper.update_course_watch_status: SELECT the row by id; if absent
return False having written nothing; otherwise compute
`status_changed = current_status != new_status`, then UPDATE status and
last_checked unconditionally and return status_changed. -/
def update_course_watch_status (db : List WatchRow) (watch_id : Nat)
    (new_status : Status) (now : Int) : List WatchRow × Bool :=
  match db.find? (fun r => r.id == watch_id) with
  | none => (db, false)
  | some row =>
    let status_changed := decide (row.status ≠ new_status)
    (db.map (fun r =>
        if r.id = watch_id then
          { r with status := new_status, last_checked := some now }
        else r),
     status_changed)

/-- db_helper.create_notification: INSERT one row into `notifications`;
`sent_at` takes the DB default CURRENT_TIMESTAMP, modelled by `now`. -/
def create_notification (notifs : List NotificationRow)
    (user_id course_watch_id : Nat) (notification_type : String)
    (now : Int) : List NotificationRow :=
  notifs ++ [⟨user_id, course_watch_id, notification_type, now⟩]

/-- Seconds per day, used to model the SQL `datetime('now', '-N days')`
cutoff arithmetic on integer timestamps. -/
def secondsPerDay : Int := 86400

/-- Result dict of cleanup_old_records, together with the table states the
deletes leave behind. -/
structure CleanupResult where
  notifications : List NotificationRow
  tokens : List TokenRow
  notifications_deleted : Nat
  tokens_deleted : Nat
deriving DecidableEq, Repr

/-- db_helper.cleanup_old_records: DELETE notifications whose sent_at is older
than `now - retention_days` days, and DELETE tokens that are used or whose
expires_at is before now; report both rowcounts. -/
def cleanup_old_records (notifs : List NotificationRow) (tokens : List TokenRow)
    (now : Int) (retention_days : Int) : CleanupResult :=
  let cutoff := now - retention_days * secondsPerDay
  let keptNotifs := notifs.filter (fun n => !(decide (n.sent_at < cutoff)))
  let keptTokens := tokens.filter (fun t => !(t.used || decide (t.expires_at < now)))
  ⟨keptNotifs, keptTokens,
   notifs.length - keptNotifs.length, tokens.length - keptTokens.length⟩

/-- The page as get_course_status observes it: the alt-texts of the images the
status selector locates on the first count, the two text probes used when that
count is zero, and the alt-texts the selector locates after the retry wait. -/
structure PageModel where
  icons : List String
  has_no_classes_text : Bool
  has_course_text : Bool
  icons_retry : List String
deriving DecidableEq, Repr

/-- The status_map dict of get_course_status: alt text to status, anything
else maps to 'unknown' (modelled as none), which the counting loop skips. -/
def status_map (alt : String) : Option Status :=
  if alt = "Open" then some Status.«open»
  else if alt = "Closed" then some Status.closed
  else if alt = "Wait List" then some Status.waitlist
  else none

/-- The counting loop of get_course_status: `for i in range(3, count)` skips
the first 3 icons (the legend) and tallies each recognised status. -/
def countStatus (icons : List String) (s : Status) : Nat :=
  (icons.drop 3).countP (fun alt => status_map alt == some s)

/-- Return dict of get_course_status: the not_found branches return only the
status key, so details and total_sections are optional. -/
structure CourseStatusResult where
  status : Status
  details : Option (Nat × Nat × Nat)
  total_sections : Option Nat
deriving DecidableEq, Repr

/-- The classification tail of get_course_status once icons are present:
overall status is open if any counted section is open, else waitlist if any is
wait-listed, else closed; total_sections is `max 0 (count - 3)`. -/
def classify_icons (icons : List String) : CourseStatusResult :=
  let openN := countStatus icons Status.«open»
  let closedN := countStatus icons Status.closed
  let waitN := countStatus icons Status.waitlist
  let overall :=
    if openN > 0 then Status.«open»
    else if waitN > 0 then Status.waitlist
    else Status.closed
  ⟨overall, some (openN, closedN, waitN), some (icons.length - 3)⟩

/-- mosaic_scraper.get_course_status: if no icons are located, consult the
page text ('No classes were found' / course text with a retry wait) and return
not_found when still nothing; otherwise classify the located icons. -/
def get_course_status (pg : PageModel) : CourseStatusResult :=
  if pg.icons.length = 0 then
    if pg.has_no_classes_text then ⟨Status.not_found, none, none⟩
    else if pg.has_course_text then
      if pg.icons_retry.length = 0 then ⟨Status.not_found, none, none⟩
      else classify_icons pg.icons_retry
    else ⟨Status.not_found, none, none⟩
  else classify_icons pg.icons

/-- An authenticated browser session, the resource login_to_mosaic produces
and scrape_all_courses threads between sweeps. -/
structure Session where
  sid : Nat
deriving DecidableEq, Repr

/-- A per-item extraction failure (any exception the item-level try of
scrape_all_courses catches: timeouts, page-not-loaded, ambiguous DOM). -/
structure ExtractionError where
  message : String
deriving DecidableEq, Repr

/-- A login failure (any exception raised by login_to_mosaic and caught by
the login handler of scrape_all_courses). -/
structure AuthError where
  message : String
deriving DecidableEq, Repr

/-- A database-level failure raised by get_active_course_watches, which sits
outside every try block of scrape_all_courses and therefore escapes it. -/
structure DBError where
  message : String
deriving DecidableEq, Repr

/-- One element of the list get_active_course_watches returns: the joined
view of a watch row with its course and user (the fields the loop body of
scrape_all_courses reads). -/
structure WatchItem where
  watch_id : Nat
  user_id : Nat
  current_status : Status
  notify_on_open : Bool
  email : String
  phone : Option String
  subject : String
  course_number : String
  term : String
deriving DecidableEq, Repr

/-- Mutable state the per-item loop of scrape_all_courses threads: the watch
table, the notifications table, the three counters, and the list of watch ids
for which send_notification was invoked (the dispatch events). -/
structure SweepAcc where
  db : List WatchRow
  notifications : List NotificationRow
  checked : Nat
  status_changed : Nat
  errors : Nat
  dispatched : List Nat
deriving DecidableEq, Repr

/-- One iteration of the per-item loop of scrape_all_courses: extract the
status (any exception increments errors and moves on), record via
update_course_watch_status, and when the status changed to open on a watch
with notify_on_open, invoke send_notification and create_notification. -/
def processWatch (check : WatchItem → Except ExtractionError Status) (now : Int)
    (acc : SweepAcc) (w : WatchItem) : SweepAcc :=
  match check w with
  | .error _ => { acc with errors := acc.errors + 1 }
  | .ok new_status =>
    let upd := update_course_watch_status acc.db w.watch_id new_status now
    let changed := upd.2
    let fire := changed && (new_status == Status.«open» && w.notify_on_open)
    { db := upd.1
      notifications :=
        if fire then
          create_notification acc.notifications w.user_id w.watch_id "email" now
        else acc.notifications
      checked := acc.checked + 1
      status_changed :=
        if changed then acc.status_changed + 1 else acc.status_changed
      errors := acc.errors
      dispatched :=
        if fire then acc.dispatched ++ [w.watch_id] else acc.dispatched }

/-- The whole per-item loop of scrape_all_courses over the fetched watches. -/
def run_sweep_items (check : WatchItem → Except ExtractionError Status)
    (now : Int) (watches : List WatchItem) (acc : SweepAcc) : SweepAcc :=
  watches.foldl (processWatch check now) acc

/-- What one call of scrape_all_courses returns and leaves behind: the
browser reference handed back for reuse, the printed summary when the run
reached it (checked, status_changed, errors), the table states, the dispatch
events, and whether cleanup_old_records ran. -/
structure ScrapeOutcome where
  browser : Option Session
  summary : Option (Nat × Nat × Nat)
  db : List WatchRow
  notifications : List NotificationRow
  tokens : List TokenRow
  dispatched : List Nat
  cleanupRan : Bool
deriving DecidableEq, Repr

/-- scraper_loop.scrape_all_courses: fetch the active watches (a DB error here
escapes the function), return early when none exist, log in only when no
browser was passed in (a login failure is caught: the browser is closed and
(None, None) is returned with no summary), then run the per-item loop,
invoke cleanup_old_records with retention_days = 4, and return the summary. -/
def scrape_all_courses (login : Except AuthError Session)
    (check : WatchItem → Except ExtractionError Status)
    (watchesR : Except DBError (List WatchItem))
    (db : List WatchRow) (notifs : List NotificationRow) (tokens : List TokenRow)
    (now : Int) (browser : Option Session) : Except DBError ScrapeOutcome :=
  match watchesR with
  | .error e => .error e
  | .ok watches =>
    if watches.isEmpty then
      .ok ⟨browser, none, db, notifs, tokens, [], false⟩
    else
      let acquired : Option Session :=
        match browser with
        | some s => some s
        | none =>
          match login with
          | .ok s => some s
          | .error _ => none
      match acquired with
      | none => .ok ⟨none, none, db, notifs, tokens, [], false⟩
      | some s =>
        let res := run_sweep_items check now watches ⟨db, notifs, 0, 0, 0, []⟩
        let cl := cleanup_old_records res.notifications tokens now 4
        .ok ⟨some s, some (res.checked, res.status_changed, res.errors),
             res.db, cl.notifications, cl.tokens, res.dispatched, true⟩

/-- The browser-restart condition of run_continuous:
`check_count > 0 and check_count % 2880 == 0`. -/
def shouldRestart (completedSweeps : Nat) : Bool :=
  decide (0 < completedSweeps) && decide (completedSweeps % 2880 = 0)

/-- The variables of run_continuous that persist across iterations, together
with the table states they act on. -/
structure LoopState where
  browser : Option Session
  check_count : Nat
  db : List WatchRow
  notifications : List NotificationRow
  tokens : List TokenRow
deriving DecidableEq, Repr

/-- What one iteration of the while loop of run_continuous produces: the
state carried to the next iteration, the seconds slept before it, and the
summary of the sweep when one was produced. -/
structure IterResult where
  state : LoopState
  slept_seconds : Nat
  last_summary : Option (Nat × Nat × Nat)
deriving DecidableEq, Repr

/-- One iteration of run_continuous: clear the browser when shouldRestart
holds, call scrape_all_courses; on normal return adopt its browser and bump
check_count, then sleep the interval; on an escaping exception keep the
variables as they were (the assignment never ran) and sleep the same
interval. -/
def run_continuous_iter (interval_minutes : Nat)
    (login : Except AuthError Session)
    (check : WatchItem → Except ExtractionError Status)
    (watchesR : Except DBError (List WatchItem))
    (now : Int) (s : LoopState) : IterResult :=
  let b1 := if shouldRestart s.check_count then none else s.browser
  match scrape_all_courses login check watchesR s.db s.notifications s.tokens now b1 with
  | .ok out =>
      ⟨⟨out.browser, s.check_count + 1, out.db, out.notifications, out.tokens⟩,
       interval_minutes * 60, out.summary⟩
  | .error _ =>
      ⟨⟨b1, s.check_count, s.db, s.notifications, s.tokens⟩,
       interval_minutes * 60, none⟩

/-! Theorems -/

/-- C6: shouldRestart(completedSweeps) is true exactly when completedSweeps is
a positive multiple of 2880; in particular shouldRestart 2880 = true,
shouldRestart 2879 = false, shouldRestart 0 = false. -/
theorem shouldRestart_iff_positive_multiple :
    (∀ n : Nat, shouldRestart n = true ↔ ∃ k : Nat, 0 < k ∧ n = 2880 * k) ∧
    shouldRestart 2880 = true ∧ shouldRestart 2879 = false ∧
    shouldRestart 0 = false := by
  refine ⟨fun n => ?_, by decide, by decide, by decide⟩
  simp only [shouldRestart, Bool.and_eq_true, decide_eq_true_eq]
  constructor
  · rintro ⟨hpos, hmod⟩
    exact ⟨n / 2880, by omega, by omega⟩
  · rintro ⟨k, hk, rfl⟩
    exact ⟨by omega, by omega⟩

/-- C2: when the watch is present in the store, update_course_watch_status
returns changed = (previous ≠ new) and unconditionally persists the new status
and a fresh last_checked for that watch (even when previous = new), while
leaving every other row untouched and keeping the watch present. -/
theorem update_course_watch_status_spec
    (db : List WatchRow) (wid : Nat) (n : Status) (now : Int) (row : WatchRow)
    (hfind : db.find? (fun r => r.id == wid) = some row) :
    (update_course_watch_status db wid n now).2 = decide (row.status ≠ n) ∧
    (∀ r ∈ (update_course_watch_status db wid n now).1,
        (r.id = wid → r.status = n ∧ r.last_checked = some now) ∧
        (r.id ≠ wid → r ∈ db)) ∧
    (∃ r ∈ (update_course_watch_status db wid n now).1, r.id = wid) := by
  unfold update_course_watch_status
  rw [hfind]
  refine ⟨rfl, ?_, ?_⟩
  · intro r hr
    rcases List.mem_map.mp hr with ⟨r0, hr0, hmap⟩
    constructor
    · intro hid
      by_cases h : r0.id = wid
      · simp only [h, if_pos] at hmap
        subst hmap; exact ⟨rfl, rfl⟩
      · simp only [h, if_neg, not_false_eq_true] at hmap
        subst hmap; exact absurd hid h
    · intro hid
      by_cases h : r0.id = wid
      · simp only [h, if_pos] at hmap
        subst hmap; exact absurd rfl hid
      · simp only [h, if_neg, not_false_eq_true] at hmap
        subst hmap; exact hr0
  · have hmem : row ∈ db := List.mem_of_find?_eq_some hfind
    have hid : row.id = wid := by
      have := List.find?_some hfind
      simpa using this
    refine ⟨{ row with status := n, last_checked := some now }, ?_, hid⟩
    refine List.mem_map.mpr ⟨row, hmem, ?_⟩
    simp [hid]

/-- C2 witness: a concrete one-row store on which the theorem applies. -/
theorem update_course_watch_status_spec_witness :
    (update_course_watch_status [⟨1, 7, 3, Status.closed, true, true, none⟩] 1
        Status.«open» 5).2 = decide (Status.closed ≠ Status.«open») ∧
    (∀ r ∈ (update_course_watch_status [⟨1, 7, 3, Status.closed, true, true, none⟩] 1
        Status.«open» 5).1,
        (r.id = 1 → r.status = Status.«open» ∧ r.last_checked = some 5) ∧
        (r.id ≠ 1 → r ∈ [⟨1, 7, 3, Status.closed, true, true, none⟩])) ∧
    (∃ r ∈ (update_course_watch_status [⟨1, 7, 3, Status.closed, true, true, none⟩] 1
        Status.«open» 5).1, r.id = 1) :=
  update_course_watch_status_spec
    [⟨1, 7, 3, Status.closed, true, true, none⟩] 1 Status.«open» 5
    ⟨1, 7, 3, Status.closed, true, true, none⟩ (by decide)

/-- C9: calling update_course_watch_status with a watch_id absent from the
store returns the untouched store together with False — the same value an
unchanged watch produces — and writes nothing. -/
theorem update_course_watch_status_missing
    (db : List WatchRow) (wid : Nat) (n : Status) (now : Int)
    (hnone : db.find? (fun r => r.id == wid) = none) :
    update_course_watch_status db wid n now = (db, false) ∧
    (∀ (db2 : List WatchRow) (row : WatchRow),
        db2.find? (fun r => r.id == wid) = some row → row.status = n →
        (update_course_watch_status db2 wid n now).2 = false) := by
  constructor
  · unfold update_course_watch_status
    rw [hnone]
  · intro db2 row hfind hsame
    unfold update_course_watch_status
    rw [hfind]
    simp [hsame]

/-- C9 witness: a store holding only watch 2, queried for watch 5. -/
theorem update_course_watch_status_missing_witness :
    update_course_watch_status [⟨2, 7, 3, Status.closed, true, true, none⟩] 5
        Status.«open» 9 = ([⟨2, 7, 3, Status.closed, true, true, none⟩], false) ∧
    (∀ (db2 : List WatchRow) (row : WatchRow),
        db2.find? (fun r => r.id == 5) = some row → row.status = Status.«open» →
        (update_course_watch_status db2 5 Status.«open» 9).2 = false) :=
  update_course_watch_status_missing
    [⟨2, 7, 3, Status.closed, true, true, none⟩] 5 Status.«open» 9 (by decide)

/-- Step lemma: the successful-extraction branch of the item loop. -/
theorem processWatch_ok (check : WatchItem → Except ExtractionError Status)
    (now : Int) (acc : SweepAcc) (w : WatchItem) (n : Status)
    (hok : check w = .ok n) :
    processWatch check now acc w =
      { db := (update_course_watch_status acc.db w.watch_id n now).1
        notifications :=
          if (update_course_watch_status acc.db w.watch_id n now).2 &&
              (n == Status.«open» && w.notify_on_open) then
            create_notification acc.notifications w.user_id w.watch_id "email" now
          else acc.notifications
        checked := acc.checked + 1
        status_changed :=
          if (update_course_watch_status acc.db w.watch_id n now).2 then
            acc.status_changed + 1
          else acc.status_changed
        errors := acc.errors
        dispatched :=
          if (update_course_watch_status acc.db w.watch_id n now).2 &&
              (n == Status.«open» && w.notify_on_open) then
            acc.dispatched ++ [w.watch_id]
          else acc.dispatched } := by
  unfold processWatch
  rw [hok]

/-- Step lemma: the caught-exception branch of the item loop. -/
theorem processWatch_error (check : WatchItem → Except ExtractionError Status)
    (now : Int) (acc : SweepAcc) (w : WatchItem) (e : ExtractionError)
    (herr : check w = .error e) :
    processWatch check now acc w = { acc with errors := acc.errors + 1 } := by
  unfold processWatch
  rw [herr]

/-- C1: for a sweep item whose extraction succeeds with status n, exactly one
dispatch event is appended iff the recorded transition changed, n is open,
and notify_on_open holds (otherwise the dispatch list is untouched); and when
the stored status is already open and n is open, nothing is dispatched. -/
theorem notification_dispatch_iff
    (check : WatchItem → Except ExtractionError Status) (now : Int)
    (acc : SweepAcc) (w : WatchItem) (n : Status)
    (hok : check w = .ok n) :
    ((processWatch check now acc w).dispatched.length = acc.dispatched.length + 1 ↔
      ((update_course_watch_status acc.db w.watch_id n now).2 = true ∧
        n = Status.«open» ∧ w.notify_on_open = true)) ∧
    ((processWatch check now acc w).dispatched.length ≠ acc.dispatched.length + 1 →
      (processWatch check now acc w).dispatched = acc.dispatched) ∧
    (∀ row : WatchRow, acc.db.find? (fun r => r.id == w.watch_id) = some row →
      row.status = Status.«open» → n = Status.«open» →
      (processWatch check now acc w).dispatched = acc.dispatched) := by
  rw [processWatch_ok check now acc w n hok]
  dsimp only
  refine ⟨?_, ?_, ?_⟩
  · by_cases hfire : ((update_course_watch_status acc.db w.watch_id n now).2 &&
        (n == Status.«open» && w.notify_on_open)) = true
    · simp only [hfire, if_true, List.length_append, List.length_singleton]
      simp only [Bool.and_eq_true, beq_iff_eq] at hfire
      obtain ⟨h1, h2, h3⟩ := hfire
      subst h2
      simp [h1, h3]
    · simp only [Bool.not_eq_true] at hfire
      have hfireP : ¬(((update_course_watch_status acc.db w.watch_id n now).2 &&
          (n == Status.«open» && w.notify_on_open)) = true) := by
        simp [hfire]
      rw [if_neg hfireP]
      constructor
      · intro h
        exact absurd h (by omega)
      · rintro ⟨h1, h2, h3⟩
        subst h2
        rw [h1, h3] at hfire
        simp at hfire
  · intro hne
    by_cases hfire : ((update_course_watch_status acc.db w.watch_id n now).2 &&
        (n == Status.«open» && w.notify_on_open)) = true
    · exfalso
      apply hne
      simp [hfire]
    · simp only [Bool.not_eq_true] at hfire
      simp [hfire]
  · intro row hfind hrow hn
    have hch : (update_course_watch_status acc.db w.watch_id n now).2 = false := by
      unfold update_course_watch_status
      rw [hfind]
      simp [hrow, hn]
    simp [hch]

/-- C1 witness: a store holding watch 1 with status closed, extraction
returning open, notify_on_open set — with a second store where the watch is
already open, re-extracted as open, dispatching nothing. -/
theorem notification_dispatch_iff_witness :
    ((processWatch (fun _ => .ok Status.«open») 3
        ⟨[⟨1, 7, 3, Status.closed, true, true, none⟩], [], 0, 0, 0, []⟩
        ⟨1, 7, Status.closed, true, "u@x", none, "CS", "1", "T"⟩).dispatched.length =
      ([] : List Nat).length + 1 ↔
      ((update_course_watch_status [⟨1, 7, 3, Status.closed, true, true, none⟩] 1
          Status.«open» 3).2 = true ∧
        Status.«open» = Status.«open» ∧ true = true)) ∧
    ((processWatch (fun _ => .ok Status.«open») 3
        ⟨[⟨1, 7, 3, Status.closed, true, true, none⟩], [], 0, 0, 0, []⟩
        ⟨1, 7, Status.closed, true, "u@x", none, "CS", "1", "T"⟩).dispatched.length ≠
        ([] : List Nat).length + 1 →
      (processWatch (fun _ => .ok Status.«open») 3
        ⟨[⟨1, 7, 3, Status.closed, true, true, none⟩], [], 0, 0, 0, []⟩
        ⟨1, 7, Status.closed, true, "u@x", none, "CS", "1", "T"⟩).dispatched = []) ∧
    (∀ row : WatchRow,
      [WatchRow.mk 1 7 3 Status.closed true true none].find? (fun r => r.id == 1) =
        some row →
      row.status = Status.«open» → Status.«open» = Status.«open» →
      (processWatch (fun _ => .ok Status.«open») 3
        ⟨[⟨1, 7, 3, Status.closed, true, true, none⟩], [], 0, 0, 0, []⟩
        ⟨1, 7, Status.closed, true, "u@x", none, "CS", "1", "T"⟩).dispatched = []) :=
  notification_dispatch_iff (fun _ => .ok Status.«open») 3
    ⟨[⟨1, 7, 3, Status.closed, true, true, none⟩], [], 0, 0, 0, []⟩
    ⟨1, 7, Status.closed, true, "u@x", none, "CS", "1", "T"⟩ Status.«open» rfl

/-- C3: a sweep over [A, B, C] in which B's extraction raises completes
without raising: the three-item run differs from the run over [A, C] only by
one more error, so checked = 2, errors = 1, and the changed count and store
state come from A and C alone; scrape_all_courses returns a summary. -/
theorem sweep_isolates_item_error
    (login : Except AuthError Session)
    (check : WatchItem → Except ExtractionError Status) (now : Int)
    (db : List WatchRow) (notifs : List NotificationRow) (tokens : List TokenRow)
    (sess : Session) (A B C : WatchItem) (a c : Status) (e : ExtractionError)
    (hA : check A = .ok a) (hB : check B = .error e) (hC : check C = .ok c) :
    (run_sweep_items check now [A, B, C] ⟨db, notifs, 0, 0, 0, []⟩).checked = 2 ∧
    (run_sweep_items check now [A, B, C] ⟨db, notifs, 0, 0, 0, []⟩).errors = 1 ∧
    run_sweep_items check now [A, B, C] ⟨db, notifs, 0, 0, 0, []⟩ =
      { run_sweep_items check now [A, C] ⟨db, notifs, 0, 0, 0, []⟩ with
          errors :=
            (run_sweep_items check now [A, C] ⟨db, notifs, 0, 0, 0, []⟩).errors + 1 } ∧
    (∃ out : ScrapeOutcome,
      scrape_all_courses login check (.ok [A, B, C]) db notifs tokens now
          (some sess) = .ok out ∧
      out.summary = some (2,
        (run_sweep_items check now [A, C] ⟨db, notifs, 0, 0, 0, []⟩).status_changed,
        1)) := by
  have key : run_sweep_items check now [A, B, C] ⟨db, notifs, 0, 0, 0, []⟩ =
      { run_sweep_items check now [A, C] ⟨db, notifs, 0, 0, 0, []⟩ with
          errors :=
            (run_sweep_items check now [A, C] ⟨db, notifs, 0, 0, 0, []⟩).errors + 1 } := by
    simp only [run_sweep_items, List.foldl_cons, List.foldl_nil, processWatch,
      hA, hB, hC]
  have hchk : (run_sweep_items check now [A, C] ⟨db, notifs, 0, 0, 0, []⟩).checked = 2 := by
    simp only [run_sweep_items, List.foldl_cons, List.foldl_nil, processWatch,
      hA, hC]
  have herr : (run_sweep_items check now [A, C] ⟨db, notifs, 0, 0, 0, []⟩).errors = 0 := by
    simp only [run_sweep_items, List.foldl_cons, List.foldl_nil, processWatch,
      hA, hC]
  refine ⟨by rw [key]; exact hchk, by rw [key]; dsimp only; rw [herr], key, ?_⟩
  refine ⟨_, rfl, ?_⟩
  dsimp only [scrape_all_courses]
  rw [key]
  dsimp only
  rw [hchk, herr]

/-- C3 witness: three concrete watches where the middle extraction raises. -/
theorem sweep_isolates_item_error_witness :
    (run_sweep_items
        (fun w => if w.watch_id == 2 then .error ⟨"timeout"⟩ else .ok Status.«open») 0
        [⟨1, 7, Status.closed, true, "a@x", none, "CS", "1", "T"⟩,
         ⟨2, 7, Status.closed, true, "b@x", none, "CS", "2", "T"⟩,
         ⟨3, 7, Status.closed, true, "c@x", none, "CS", "3", "T"⟩]
        ⟨[], [], 0, 0, 0, []⟩).checked = 2 ∧
    (run_sweep_items
        (fun w => if w.watch_id == 2 then .error ⟨"timeout"⟩ else .ok Status.«open») 0
        [⟨1, 7, Status.closed, true, "a@x", none, "CS", "1", "T"⟩,
         ⟨2, 7, Status.closed, true, "b@x", none, "CS", "2", "T"⟩,
         ⟨3, 7, Status.closed, true, "c@x", none, "CS", "3", "T"⟩]
        ⟨[], [], 0, 0, 0, []⟩).errors = 1 :=
  ⟨(sweep_isolates_item_error (.ok ⟨0⟩)
      (fun w => if w.watch_id == 2 then .error ⟨"timeout"⟩ else .ok Status.«open») 0
      [] [] [] ⟨0⟩
      ⟨1, 7, Status.closed, true, "a@x", none, "CS", "1", "T"⟩
      ⟨2, 7, Status.closed, true, "b@x", none, "CS", "2", "T"⟩
      ⟨3, 7, Status.closed, true, "c@x", none, "CS", "3", "T"⟩
      Status.«open» Status.«open» ⟨"timeout"⟩ rfl rfl rfl).1,
   (sweep_isolates_item_error (.ok ⟨0⟩)
      (fun w => if w.watch_id == 2 then .error ⟨"timeout"⟩ else .ok Status.«open») 0
      [] [] [] ⟨0⟩
      ⟨1, 7, Status.closed, true, "a@x", none, "CS", "1", "T"⟩
      ⟨2, 7, Status.closed, true, "b@x", none, "CS", "2", "T"⟩
      ⟨3, 7, Status.closed, true, "c@x", none, "CS", "3", "T"⟩
      Status.«open» Status.«open» ⟨"timeout"⟩ rfl rfl rfl).2.1⟩

/-- C4 counterexample: with a failing login at the start of a sweep over one
watch, scrape_all_courses does not raise — the failure is caught inside it and
it returns normally, with no summary, no browser, and untouched tables. -/
theorem auth_error_is_caught_counterexample :
    scrape_all_courses (.error ⟨"bad credentials"⟩) (fun _ => .ok Status.closed)
      (.ok [⟨1, 7, Status.closed, true, "a@x", none, "CS", "1", "T"⟩])
      [] [] [] 0 none =
    .ok ⟨none, none, [], [], [], [], false⟩ := rfl

/-- C4 (amended): a login failure at sweep start is caught inside
scrape_all_courses, which returns without raising and without a summary; zero
watches are checked and nothing is written; the continuous loop then advances
its counter, sleeps the configured interval, and — the browser reference
being None — the next iteration performs a fresh session acquisition. -/
theorem auth_failure_contained
    (check : WatchItem → Except ExtractionError Status)
    (ws : List WatchItem) (hne : ws ≠ []) (a : AuthError)
    (db : List WatchRow) (notifs : List NotificationRow) (tokens : List TokenRow)
    (now : Int) (interval : Nat) (s : LoopState) (hb : s.browser = none) :
    scrape_all_courses (.error a) check (.ok ws) db notifs tokens now none =
      .ok ⟨none, none, db, notifs, tokens, [], false⟩ ∧
    run_continuous_iter interval (.error a) check (.ok ws) now s =
      ⟨⟨none, s.check_count + 1, s.db, s.notifications, s.tokens⟩,
       interval * 60, none⟩ ∧
    (∀ sess : Session,
      (run_continuous_iter interval (.ok sess) check (.ok ws) now
          ⟨none, s.check_count + 1, s.db, s.notifications, s.tokens⟩).state.browser =
        some sess) := by
  have h0 : ws.isEmpty = false := by cases ws <;> simp_all
  have hscr : ∀ (db' : List WatchRow) (n' : List NotificationRow)
      (t' : List TokenRow),
      scrape_all_courses (.error a) check (.ok ws) db' n' t' now none =
        .ok ⟨none, none, db', n', t', [], false⟩ := by
    intro db' n' t'
    simp [scrape_all_courses, h0]
  refine ⟨hscr db notifs tokens, ?_, ?_⟩
  · unfold run_continuous_iter
    rw [hb, ite_self]
    simp only [hscr]
  · intro sess
    unfold run_continuous_iter
    rw [ite_self]
    simp [scrape_all_courses, h0]

/-- C4 witness: the amended theorem applied to a concrete one-watch store and
a concrete loop state with no live browser. -/
theorem auth_failure_contained_witness :
    scrape_all_courses (.error ⟨"x"⟩) (fun _ => .ok Status.closed)
      (.ok [⟨1, 7, Status.closed, true, "a@x", none, "CS", "1", "T"⟩])
      [] [] [] 0 none =
      .ok ⟨none, none, [], [], [], [], false⟩ ∧
    run_continuous_iter 5 (.error ⟨"x"⟩) (fun _ => .ok Status.closed)
      (.ok [⟨1, 7, Status.closed, true, "a@x", none, "CS", "1", "T"⟩]) 0
      ⟨none, 0, [], [], []⟩ =
      ⟨⟨none, 0 + 1, [], [], []⟩, 5 * 60, none⟩ ∧
    (∀ sess : Session,
      (run_continuous_iter 5 (.ok sess) (fun _ => .ok Status.closed)
          (.ok [⟨1, 7, Status.closed, true, "a@x", none, "CS", "1", "T"⟩]) 0
          ⟨none, 0 + 1, [], [], []⟩).state.browser = some sess) :=
  auth_failure_contained (fun _ => .ok Status.closed)
    [⟨1, 7, Status.closed, true, "a@x", none, "CS", "1", "T"⟩] (by simp)
    ⟨"x"⟩ [] [] [] 0 5 ⟨none, 0, [], [], []⟩ rfl

/-- C5 counterexample: when a sweep iteration raises (a watch-fetch database
error), the runner keeps the old session reference — the next iteration's
browser is still the previous session, not None, so no re-authentication
happens, contradicting the claimed discard. -/
theorem session_not_discarded_counterexample :
    (run_continuous_iter 5 (.ok ⟨99⟩) (fun _ => .ok Status.closed)
        (.error ⟨"database is locked"⟩) 0
        ⟨some ⟨7⟩, 1, [], [], []⟩).state.browser = some ⟨7⟩ ∧
    (run_continuous_iter 5 (.ok ⟨99⟩) (fun _ => .ok Status.closed)
        (.error ⟨"database is locked"⟩) 0
        ⟨some ⟨7⟩, 1, [], [], []⟩).state.browser ≠ none :=
  ⟨rfl, by simp [run_continuous_iter, scrape_all_courses, shouldRestart]⟩

/-- C5 (amended): after an unexpected exception escapes a sweep iteration,
the runner logs it, keeps the loop alive, and retries after the same fixed
interval, but it retains the session reference unchanged (unless the restart
threshold had already cleared it that iteration): the next iteration reuses
the existing session rather than re-authenticating. -/
theorem sweep_escape_retains_session
    (interval : Nat) (login : Except AuthError Session)
    (check : WatchItem → Except ExtractionError Status)
    (e : DBError) (now : Int) (s : LoopState)
    (hres : shouldRestart s.check_count = false) :
    run_continuous_iter interval login check (.error e) now s =
      ⟨⟨s.browser, s.check_count, s.db, s.notifications, s.tokens⟩,
       interval * 60, none⟩ := by
  unfold run_continuous_iter
  rw [hres]
  simp [scrape_all_courses]

/-- C5 witness: a concrete loop state holding session 7 at a non-restart
count, hit by a concrete database error. -/
theorem sweep_escape_retains_session_witness :
    run_continuous_iter 5 (.ok ⟨99⟩) (fun _ => .ok Status.closed)
      (.error ⟨"db gone"⟩) 0 ⟨some ⟨7⟩, 3, [], [], []⟩ =
      ⟨⟨some ⟨7⟩, 3, [], [], []⟩, 5 * 60, none⟩ :=
  sweep_escape_retains_session 5 (.ok ⟨99⟩) (fun _ => .ok Status.closed)
    ⟨"db gone"⟩ 0 ⟨some ⟨7⟩, 3, [], [], []⟩ (by decide)

/-- C7: a sweep that processes at least one item ends by invoking
cleanup_old_records with retention_days = 4, and with that window the
surviving notifications are exactly those not older than 4 days while the
surviving tokens are exactly the unused, unexpired ones. -/
theorem cleanup_retention_spec
    (login : Except AuthError Session)
    (check : WatchItem → Except ExtractionError Status)
    (ws : List WatchItem) (hne : ws ≠ [])
    (db : List WatchRow) (notifs : List NotificationRow) (tokens : List TokenRow)
    (now : Int) (sess : Session) :
    (∃ out : ScrapeOutcome,
      scrape_all_courses login check (.ok ws) db notifs tokens now (some sess) =
        .ok out ∧
      out.cleanupRan = true ∧
      out.notifications =
        (cleanup_old_records
          (run_sweep_items check now ws ⟨db, notifs, 0, 0, 0, []⟩).notifications
          tokens now 4).notifications ∧
      out.tokens =
        (cleanup_old_records
          (run_sweep_items check now ws ⟨db, notifs, 0, 0, 0, []⟩).notifications
          tokens now 4).tokens) ∧
    (∀ (notifs2 : List NotificationRow) (tokens2 : List TokenRow) (now2 : Int)
        (n : NotificationRow),
      n ∈ (cleanup_old_records notifs2 tokens2 now2 4).notifications ↔
        n ∈ notifs2 ∧ ¬(n.sent_at < now2 - 4 * secondsPerDay)) ∧
    (∀ (notifs2 : List NotificationRow) (tokens2 : List TokenRow) (now2 : Int)
        (t : TokenRow),
      t ∈ (cleanup_old_records notifs2 tokens2 now2 4).tokens ↔
        t ∈ tokens2 ∧ t.used = false ∧ ¬(t.expires_at < now2)) := by
  refine ⟨?_, ?_, ?_⟩
  · have h0 : ws.isEmpty = false := by cases ws <;> simp_all
    have hs : scrape_all_courses login check (.ok ws) db notifs tokens now
        (some sess) =
        .ok ⟨some sess,
             some ((run_sweep_items check now ws ⟨db, notifs, 0, 0, 0, []⟩).checked,
                   (run_sweep_items check now ws
                     ⟨db, notifs, 0, 0, 0, []⟩).status_changed,
                   (run_sweep_items check now ws ⟨db, notifs, 0, 0, 0, []⟩).errors),
             (run_sweep_items check now ws ⟨db, notifs, 0, 0, 0, []⟩).db,
             (cleanup_old_records
               (run_sweep_items check now ws ⟨db, notifs, 0, 0, 0, []⟩).notifications
               tokens now 4).notifications,
             (cleanup_old_records
               (run_sweep_items check now ws ⟨db, notifs, 0, 0, 0, []⟩).notifications
               tokens now 4).tokens,
             (run_sweep_items check now ws ⟨db, notifs, 0, 0, 0, []⟩).dispatched,
             true⟩ := by
      simp [scrape_all_courses, h0]
    exact ⟨_, hs, rfl, rfl, rfl⟩
  · intro notifs2 tokens2 now2 n
    simp [cleanup_old_records, List.mem_filter]
  · intro notifs2 tokens2 now2 t
    simp [cleanup_old_records, List.mem_filter]

/-- C7 witness: the sweep part applied to a one-watch store with concrete
notification and token tables. -/
theorem cleanup_retention_spec_witness :
    ∃ out : ScrapeOutcome,
      scrape_all_courses (.ok ⟨0⟩) (fun _ => .ok Status.«open»)
          (.ok [⟨1, 7, Status.closed, true, "a@x", none, "CS", "1", "T"⟩])
          [⟨1, 7, 3, Status.closed, true, true, none⟩]
          [⟨7, 1, "email", 0⟩] [⟨7, "tok", 999999, false⟩]
          (10 * 86400) (some ⟨5⟩) = .ok out ∧
      out.cleanupRan = true ∧
      out.notifications =
        (cleanup_old_records
          (run_sweep_items (fun _ => .ok Status.«open») (10 * 86400)
            [⟨1, 7, Status.closed, true, "a@x", none, "CS", "1", "T"⟩]
            ⟨[⟨1, 7, 3, Status.closed, true, true, none⟩], [⟨7, 1, "email", 0⟩],
              0, 0, 0, []⟩).notifications
          [⟨7, "tok", 999999, false⟩] (10 * 86400) 4).notifications ∧
      out.tokens =
        (cleanup_old_records
          (run_sweep_items (fun _ => .ok Status.«open») (10 * 86400)
            [⟨1, 7, Status.closed, true, "a@x", none, "CS", "1", "T"⟩]
            ⟨[⟨1, 7, 3, Status.closed, true, true, none⟩], [⟨7, 1, "email", 0⟩],
              0, 0, 0, []⟩).notifications
          [⟨7, "tok", 999999, false⟩] (10 * 86400) 4).tokens :=
  (cleanup_retention_spec (.ok ⟨0⟩) (fun _ => .ok Status.«open»)
    [⟨1, 7, Status.closed, true, "a@x", none, "CS", "1", "T"⟩] (by simp)
    [⟨1, 7, 3, Status.closed, true, true, none⟩]
    [⟨7, 1, "email", 0⟩] [⟨7, "tok", 999999, false⟩] (10 * 86400) ⟨5⟩).1

/-- C8 counterexample: a results page whose selector locates exactly the 3
legend icons and zero actual sections is classified as closed (with
total_sections = 0), not as not_found. -/
theorem legend_only_page_is_closed :
    (get_course_status ⟨["Open", "Closed", "Wait List"], false, false, []⟩).status =
      Status.closed ∧
    (get_course_status
        ⟨["Open", "Closed", "Wait List"], false, false, []⟩).total_sections =
      some 0 := by
  constructor <;> rfl

/-- C8 (amended): the extracted status is not_found exactly when the selector
locates zero status icons (legend included) and, in the zero-icon branch, the
page text probes or the retry also yield nothing; when icons are located but
at most 3 of them (so zero non-legend sections), the status is closed. -/
theorem not_found_vs_closed_characterization :
    (∀ pg : PageModel,
      ((get_course_status pg).status = Status.not_found ↔
        (pg.icons = [] ∧
          (pg.has_no_classes_text = true ∨ pg.has_course_text = false ∨
            pg.icons_retry = [])))) ∧
    (∀ pg : PageModel, pg.icons ≠ [] → pg.icons.length ≤ 3 →
      (get_course_status pg).status = Status.closed) := by
  have hcl : ∀ l : List String,
      ¬((classify_icons l).status = Status.not_found) := by
    intro l h
    dsimp [classify_icons] at h
    split at h
    · exact absurd h (by simp)
    · split at h
      · exact absurd h (by simp)
      · exact absurd h (by simp)
  constructor
  · intro pg
    unfold get_course_status
    split_ifs with h1 h2 h3 h4
    · simp_all [List.length_eq_zero]
    · simp_all [List.length_eq_zero]
    · simp_all [List.length_eq_zero, hcl]
    · simp_all [List.length_eq_zero]
    · simp_all [List.length_eq_zero, hcl]
  · intro pg h1 h2
    have hlen : ¬(pg.icons.length = 0) := by
      simpa [List.length_eq_zero] using h1
    have hdrop : pg.icons.drop 3 = [] := List.drop_eq_nil_of_le h2
    simp [get_course_status, hlen, classify_icons, countStatus, hdrop]

/-- C8 witness: a page with two icons (fewer than the 3 skipped as legend) is
classified closed, and a blank no-results page is not_found. -/
theorem not_found_vs_closed_characterization_witness :
    ((get_course_status ⟨[], true, false, []⟩).status = Status.not_found ↔
      (([] : List String) = [] ∧
        (true = true ∨ false = false ∨ ([] : List String) = []))) ∧
    (get_course_status ⟨["Open", "Closed"], false, false, []⟩).status =
      Status.closed :=
  ⟨not_found_vs_closed_characterization.1 ⟨[], true, false, []⟩,
   not_found_vs_closed_characterization.2 ⟨["Open", "Closed"], false, false, []⟩
     (by simp) (by simp)⟩

/-- C10: with at least one non-legend status icon located, the overall status
is open if any counted section is open, else waitlist if any counted section
is wait-listed, else closed. -/
theorem overall_status_priority (pg : PageModel)
    (hvalid : ∀ alt ∈ pg.icons,
      alt = "Open" ∨ alt = "Closed" ∨ alt = "Wait List")
    (hcount : 3 < pg.icons.length) :
    (get_course_status pg).status =
      (if "Open" ∈ pg.icons.drop 3 then Status.«open»
       else if "Wait List" ∈ pg.icons.drop 3 then Status.waitlist
       else Status.closed) := by
  have h0 : ¬(pg.icons.length = 0) := by omega
  have hopen : 0 < countStatus pg.icons Status.«open» ↔
      "Open" ∈ pg.icons.drop 3 := by
    unfold countStatus
    rw [List.countP_pos_iff]
    constructor
    · rintro ⟨alt, hmem, hp⟩
      have : alt = "Open" := by
        by_contra hne
        simp [status_map, hne] at hp
        split at hp <;> simp_all
      exact this ▸ hmem
    · intro hm
      exact ⟨"Open", hm, by simp [status_map]⟩
  have hwait : 0 < countStatus pg.icons Status.waitlist ↔
      "Wait List" ∈ pg.icons.drop 3 := by
    unfold countStatus
    rw [List.countP_pos_iff]
    constructor
    · rintro ⟨alt, hmem, hp⟩
      have : alt = "Wait List" := by
        by_contra hne
        simp [status_map] at hp
        split at hp <;> simp_all
      exact this ▸ hmem
    · intro hm
      exact ⟨"Wait List", hm, by simp [status_map]⟩
  by_cases ho : "Open" ∈ pg.icons.drop 3
  · simp [get_course_status, h0, classify_icons, hopen.mpr ho, ho]
  · by_cases hw : "Wait List" ∈ pg.icons.drop 3
    · have hno : ¬(0 < countStatus pg.icons Status.«open») := by
        rw [hopen]; exact ho
      simp [get_course_status, h0, classify_icons, hno, hwait.mpr hw, ho, hw]
    · have hno : ¬(0 < countStatus pg.icons Status.«open») := by
        rw [hopen]; exact ho
      have hnw : ¬(0 < countStatus pg.icons Status.waitlist) := by
        rw [hwait]; exact hw
      simp [get_course_status, h0, classify_icons, hno, hnw, ho, hw]

/-- C10 witness: one open section among closed and wait-listed ones makes the
whole course open. -/
theorem overall_status_priority_witness :
    (get_course_status
        ⟨["Open", "Closed", "Wait List", "Closed", "Open", "Wait List"],
          false, false, []⟩).status =
      (if "Open" ∈
          (["Open", "Closed", "Wait List", "Closed", "Open",
            "Wait List"] : List String).drop 3 then Status.«open»
       else if "Wait List" ∈
          (["Open", "Closed", "Wait List", "Closed", "Open",
            "Wait List"] : List String).drop 3 then Status.waitlist
       else Status.closed) :=
  overall_status_priority
    ⟨["Open", "Closed", "Wait List", "Closed", "Open", "Wait List"],
      false, false, []⟩ (by decide) (by decide)

end SeatTracker
